import Mathlib

/-!
Verification of the poker-simulator core: a shallow embedding in Lean 4 of
src/poker_engine.py and src/range_estimator.py, together with theorems that
settle the frozen claims about hand evaluation, hand comparison, outs
counting, Monte-Carlo dealing, pot odds, decision analysis and range
estimation.

Modelling conventions:
* A Python `Card` stores a rank symbol and a suit symbol; rank symbols map
  bijectively to the derived `value` 0..12 (`RANK_VALUES`) and the four suit
  symbols H, D, C, S map to 0..3.  A card is represented here by that pair of
  numbers, so Python card equality/hashing by (rank, suit) is plain structure
  equality.
* Python floats are modelled by exact rationals; `round(x, n)` is modelled by
  `pyRound` (round half to even on the exact value, as Python's `round`)
  scaled by `10 ^ n`.
* Python lists and sets of hands are modelled by `List`; set iteration order
  never matters for the statements proved here, which are phrased in terms of
  membership and of order-insensitive aggregates.
* Hand-notation strings such as "AKs" are modelled as `List Char`; purely
  presentational strings (descriptions, action labels) are `String`.
-/

namespace Poker

/-- Python `Card`: rank value 0..12 (2,3,...,10,J,Q,K,A) and suit 0..3
(H,D,C,S).  Mirrors `poker_engine.Card`, whose equality and hash are by the
(rank, suit) pair. -/
structure Card where
  rank : Nat
  suit : Nat
  deriving DecidableEq, Repr

/-- Python enum `HandRank` from poker_engine.py. -/
inductive HandRank where
  | HIGH_CARD
  | PAIR
  | TWO_PAIR
  | THREE_OF_A_KIND
  | STRAIGHT
  | FLUSH
  | FULL_HOUSE
  | FOUR_OF_A_KIND
  | STRAIGHT_FLUSH
  | ROYAL_FLUSH
  deriving DecidableEq, Repr

/-- The numeric `.value` of each `HandRank` enum member. -/
def HandRank.value : HandRank → Nat
  | .HIGH_CARD => 0
  | .PAIR => 1
  | .TWO_PAIR => 2
  | .THREE_OF_A_KIND => 3
  | .STRAIGHT => 4
  | .FLUSH => 5
  | .FULL_HOUSE => 6
  | .FOUR_OF_A_KIND => 7
  | .STRAIGHT_FLUSH => 8
  | .ROYAL_FLUSH => 9

/-- Python `create_deck`: all 52 cards, rank-major then suit, mirroring
`[Card(r, s) for r in RANKS for s in SUITS]`. -/
def create_deck : List Card :=
  (List.range 13).flatMap (fun r => (List.range 4).map (fun s => ⟨r, s⟩))

/-- Insert into a list that is sorted descending by `ge` (used to model
Python's `sorted(..., reverse=True)`; only the resulting order matters to the
source, never stability, because all sort keys used are distinct or the
sorted values are compared as multisets). -/
def insortBy {α : Type} (ge : α → α → Bool) (x : α) : List α → List α
  | [] => [x]
  | y :: ys => if ge x y then x :: y :: ys else y :: insortBy ge x ys

/-- Sort descending by `ge`, modelling Python `sorted(..., reverse=True)`. -/
def sortByDesc {α : Type} (ge : α → α → Bool) (l : List α) : List α :=
  l.foldr (insortBy ge) []

/-- Sort a list of naturals in descending order. -/
def sortDesc (l : List Nat) : List Nat :=
  sortByDesc (fun a b => decide (b ≤ a)) l

/-- The underlying set of a list of naturals, as a duplicate-free list;
models Python `set(...)` (the source only ever takes the size of such a set
or sorts it, so the order of this list is irrelevant). -/
def setList : List Nat → List Nat
  | [] => []
  | x :: xs =>
    let r := setList xs
    if x ∈ r then r else x :: r

/-- Python's `>` on two lists of ints: lexicographic, with a longer list
beating its proper prefix. -/
def pyListGt : List Nat → List Nat → Bool
  | [], _ => false
  | _ :: _, [] => true
  | a :: t1, b :: t2 => if b < a then true else if a < b then false else pyListGt t1 t2

/-- Python's `>` on `(hand_rank.value, tiebreaker)` tuples, as used to pick
the best 5-card combination in `evaluate_hand`. -/
def pyEvalGt (a b : HandRank × List Nat) : Bool :=
  decide (b.1.value < a.1.value) || (decide (a.1.value = b.1.value) && pyListGt a.2 b.2)

/-- Python `itertools.combinations(l, n)`: all length-`n` sublists of `l` in
the order `combinations` yields them. -/
def combinationsLen {α : Type} : Nat → List α → List (List α)
  | 0, _ => [[]]
  | _ + 1, [] => []
  | n + 1, x :: xs => (combinationsLen n xs).map (fun c => x :: c) ++ combinationsLen (n + 1) xs

/-- Python `_evaluate_five_cards` from poker_engine.py: evaluate exactly 5
cards into a `(HandRank, tiebreaker)` pair. -/
def evaluate_five_cards (cards : List Card) : HandRank × List Nat :=
  let values := sortDesc (cards.map Card.rank)
  let suits := cards.map Card.suit
  let is_flush := (setList suits).length = 1
  let unique_values := sortDesc (setList (cards.map Card.rank))
  let u0 := unique_values.headD 0
  let u4 := unique_values.getLastD 0
  let straight : Bool × Nat :=
    if unique_values.length = 5 then
      if u0 - u4 = 4 then (true, u0)
      else if unique_values = [12, 3, 2, 1, 0] then (true, 3)
      else (false, 0)
    else (false, 0)
  let is_straight := straight.1
  let straight_high := straight.2
  let counted := (setList (cards.map Card.rank)).map (fun v => (v, values.count v))
  let counts := sortDesc (counted.map Prod.snd)
  let sorted_by_count :=
    sortByDesc (fun a b => decide (b.2 < a.2) || (decide (a.2 = b.2) && decide (b.1 ≤ a.1))) counted
  let kickers := sorted_by_count.map Prod.fst
  if is_straight ∧ is_flush then
    if straight_high = 12 then (HandRank.ROYAL_FLUSH, [straight_high])
    else (HandRank.STRAIGHT_FLUSH, [straight_high])
  else if counts = [4, 1] then (HandRank.FOUR_OF_A_KIND, kickers)
  else if counts = [3, 2] then (HandRank.FULL_HOUSE, kickers)
  else if is_flush then (HandRank.FLUSH, values)
  else if is_straight then (HandRank.STRAIGHT, [straight_high])
  else if counts = [3, 1, 1] then (HandRank.THREE_OF_A_KIND, kickers)
  else if counts = [2, 2, 1] then (HandRank.TWO_PAIR, kickers)
  else if counts = [2, 1, 1, 1] then (HandRank.PAIR, kickers)
  else (HandRank.HIGH_CARD, values)

/-- Python `evaluate_hand`: best 5-card hand among all 5-card combinations,
or the `(HIGH_CARD, [0])` sentinel when fewer than 5 cards are supplied.
The maximum over combinations is order-insensitive, so the enumeration order
of `combinationsLen` is immaterial. -/
def evaluate_hand (cards : List Card) : HandRank × List Nat :=
  if cards.length < 5 then (HandRank.HIGH_CARD, [0])
  else
    match (combinationsLen 5 cards).map evaluate_five_cards with
    | [] => (HandRank.HIGH_CARD, [0])
    | e :: es => es.foldl (fun best x => if pyEvalGt x best then x else best) e

/-- The tiebreaker loop of Python `compare_hands`: `for v1, v2 in zip(...)`,
returning on the first difference, else 0. -/
def cmpTiebreak : List Nat → List Nat → Int
  | [], _ => 0
  | _ :: _, [] => 0
  | a :: t1, b :: t2 => if b < a then 1 else if a < b then -1 else cmpTiebreak t1 t2

/-- Python `compare_hands`: 1 if hand1 wins, -1 if hand2 wins, 0 if tie. -/
def compare_hands (h1 h2 : HandRank × List Nat) : Int :=
  if h2.1.value < h1.1.value then 1
  else if h1.1.value < h2.1.value then -1
  else cmpTiebreak h1.2 h2.2

/-- The outs breakdown dict built by Python `count_outs` (its keys, in source
order; `overcards` is initialised and never written). -/
structure OutsReport where
  total : Nat
  to_straight : List Card
  to_flush : List Card
  to_pair : List Card
  to_two_pair : List Card
  to_trips : List Card
  to_full_house : List Card
  to_quads : List Card
  overcards : List Card
  deriving DecidableEq, Repr

/-- The unseen cards of `count_outs` and `get_remaining_deck`: every deck
card not in `hole ∪ board`. -/
def unknown_cards (hole board : List Card) : List Card :=
  create_deck.filter (fun c => decide (c ∉ hole ++ board))

/-- One iteration of the `for card in unknown_cards` loop of Python
`count_outs`: bump the total when the new evaluation strictly exceeds the
current one, then run the elif chain that categorises the out. -/
def outs_step (cur : HandRank × List Nat) (hole board : List Card) (o : OutsReport)
    (card : Card) : OutsReport :=
  let new_eval := evaluate_hand (hole ++ board ++ [card])
  if pyEvalGt new_eval cur then
    let o1 := { o with total := o.total + 1 }
    if new_eval.1 = .STRAIGHT ∨ new_eval.1 = .STRAIGHT_FLUSH then
      if cur.1 ≠ .STRAIGHT then { o1 with to_straight := o1.to_straight ++ [card] } else o1
    else if new_eval.1 = .FLUSH then
      if cur.1 ≠ .FLUSH then { o1 with to_flush := o1.to_flush ++ [card] } else o1
    else if new_eval.1 = .FOUR_OF_A_KIND then { o1 with to_quads := o1.to_quads ++ [card] }
    else if new_eval.1 = .FULL_HOUSE then
      if cur.1.value < HandRank.FULL_HOUSE.value then
        { o1 with to_full_house := o1.to_full_house ++ [card] }
      else o1
    else if new_eval.1 = .THREE_OF_A_KIND then { o1 with to_trips := o1.to_trips ++ [card] }
    else if new_eval.1 = .TWO_PAIR then
      if cur.1.value < HandRank.TWO_PAIR.value then
        { o1 with to_two_pair := o1.to_two_pair ++ [card] }
      else o1
    else if new_eval.1 = .PAIR then { o1 with to_pair := o1.to_pair ++ [card] }
    else o1
  else o

/-- Python `count_outs(hole_cards, board)`. -/
def count_outs (hole board : List Card) : OutsReport :=
  let current_eval := evaluate_hand (hole ++ board)
  (unknown_cards hole board).foldl (outs_step current_eval hole board)
    ⟨0, [], [], [], [], [], [], [], []⟩

/-- Does adding card `c` to hole+board strictly improve the evaluation past
`cur` (the out test of `count_outs`)? -/
def out_improves (cur : HandRank × List Nat) (hole board : List Card) (c : Card) : Bool :=
  pyEvalGt (evaluate_hand (hole ++ board ++ [c])) cur

/-- The category of the hand obtained by adding card `c` to hole+board. -/
def out_cat (hole board : List Card) (c : Card) : HandRank :=
  (evaluate_hand (hole ++ board ++ [c])).1

/-- Membership test of card `c` in the `to_straight` list of `count_outs`. -/
def out_to_straight (cur : HandRank × List Nat) (hole board : List Card) (c : Card) : Bool :=
  out_improves cur hole board c
    && (out_cat hole board c == .STRAIGHT || out_cat hole board c == .STRAIGHT_FLUSH)
    && !(cur.1 == .STRAIGHT)

/-- Membership test of card `c` in the `to_flush` list of `count_outs`. -/
def out_to_flush (cur : HandRank × List Nat) (hole board : List Card) (c : Card) : Bool :=
  out_improves cur hole board c && out_cat hole board c == .FLUSH && !(cur.1 == .FLUSH)

/-- Membership test of card `c` in the `to_quads` list of `count_outs`. -/
def out_to_quads (cur : HandRank × List Nat) (hole board : List Card) (c : Card) : Bool :=
  out_improves cur hole board c && out_cat hole board c == .FOUR_OF_A_KIND

/-- Membership test of card `c` in the `to_full_house` list of `count_outs`. -/
def out_to_full_house (cur : HandRank × List Nat) (hole board : List Card) (c : Card) : Bool :=
  out_improves cur hole board c && out_cat hole board c == .FULL_HOUSE
    && decide (cur.1.value < HandRank.FULL_HOUSE.value)

/-- Membership test of card `c` in the `to_trips` list of `count_outs`. -/
def out_to_trips (cur : HandRank × List Nat) (hole board : List Card) (c : Card) : Bool :=
  out_improves cur hole board c && out_cat hole board c == .THREE_OF_A_KIND

/-- Membership test of card `c` in the `to_two_pair` list of `count_outs`. -/
def out_to_two_pair (cur : HandRank × List Nat) (hole board : List Card) (c : Card) : Bool :=
  out_improves cur hole board c && out_cat hole board c == .TWO_PAIR
    && decide (cur.1.value < HandRank.TWO_PAIR.value)

/-- Membership test of card `c` in the `to_pair` list of `count_outs`. -/
def out_to_pair (cur : HandRank × List Nat) (hole board : List Card) (c : Card) : Bool :=
  out_improves cur hole board c && out_cat hole board c == .PAIR

/-- The union (as a concatenated list) of the seven improvement-category
lists of an `OutsReport`. -/
def outs_union (o : OutsReport) : List Card :=
  o.to_straight ++ o.to_flush ++ o.to_pair ++ o.to_two_pair ++ o.to_trips
    ++ o.to_full_house ++ o.to_quads

/-- Python `round(x)` to the nearest integer, half to even, on the exact
rational modelling the float. -/
def pyRound (x : ℚ) : ℤ :=
  let f := ⌊x⌋
  let r := x - (f : ℚ)
  if r < 1 / 2 then f
  else if 1 / 2 < r then f + 1
  else if f % 2 = 0 then f else f + 1

/-- Python `round(x, 1)`. -/
def round1 (x : ℚ) : ℚ := ((pyRound (10 * x) : ℤ) : ℚ) / 10

/-- Python `round(x, 2)`. -/
def round2 (x : ℚ) : ℚ := ((pyRound (100 * x) : ℤ) : ℚ) / 100

/-- The dict returned by Python `calculate_pot_odds` (the purely
presentational `display` string, an f-format of `ratio`, is not modelled). -/
structure PotOdds where
  ratio : ℚ
  percentage : ℚ
  required_equity : ℚ
  deriving DecidableEq, Repr

/-- Python `calculate_pot_odds(pot_size, call_amount)`. -/
def calculate_pot_odds (pot_size call_amount : ℚ) : PotOdds :=
  if call_amount ≤ 0 then ⟨0, 0, 0⟩
  else
    let ratio := pot_size / call_amount
    let percentage := call_amount / (pot_size + call_amount) * 100
    let required_equity := percentage
    ⟨round2 ratio, round1 percentage, round1 required_equity⟩

/-- The dict returned by Python `analyze_decision` (the prose `reasoning`
and `implied_odds_note` strings, f-formats of already-modelled numbers, are
not modelled; `stack_size` feeds only the latter). -/
structure DecisionReport where
  pot_odds : PotOdds
  equity : ℚ
  required_equity : ℚ
  is_profitable : Bool
  expected_value : ℚ
  recommended_action : String
  deriving DecidableEq, Repr

/-- Python `analyze_decision(pot_size, call_amount, equity, stack_size)`. -/
def analyze_decision (pot_size call_amount equity stack_size : ℚ) : DecisionReport :=
  let pot_odds := calculate_pot_odds pot_size call_amount
  let required_equity := pot_odds.required_equity
  let pot_after_call := pot_size + call_amount
  let ev := equity / 100 * pot_after_call - (1 - equity / 100) * call_amount
  let is_profitable := decide (required_equity < equity)
  let action :=
    if call_amount = 0 then (r"CHECK")
    else if required_equity < equity then
      if 20 < equity - required_equity then (r"RAISE")
      else if 10 < equity - required_equity then (r"CALL")
      else (r"CALL (marginal)")
    else
      if 15 < required_equity - equity then (r"FOLD")
      else (r"FOLD (close)")
  ⟨pot_odds, equity, required_equity, is_profitable, round2 ev, action⟩

/-- Python enum `Position` from range_estimator.py. -/
inductive Position where
  | UTG
  | UTG1
  | MP
  | MP1
  | CO
  | BTN
  | SB
  | BB
  deriving DecidableEq, Repr

/-- Python enum `Action` from range_estimator.py. -/
inductive Action where
  | FOLD
  | LIMP
  | CALL
  | RAISE
  | THREE_BET
  | FOUR_BET
  | ALL_IN
  | CHECK
  | BET
  deriving DecidableEq, Repr

/-- The `.name` of a `Position` enum member, used in f-string descriptions. -/
def Position.pname : Position → String
  | .UTG => (r"UTG")
  | .UTG1 => (r"UTG1")
  | .MP => (r"MP")
  | .MP1 => (r"MP1")
  | .CO => (r"CO")
  | .BTN => (r"BTN")
  | .SB => (r"SB")
  | .BB => (r"BB")

/-- A hand-notation string such as "AA", "AKs" or "T9o", as its characters. -/
abbrev HandNote := List Char

/-- Hand notation from a Lean string literal. -/
def hn (s : String) : HandNote := s.data

/-- One position's entry in Python `PREFLOP_RANGES`: the per-context hand
sets.  `callSet` is `some` exactly for the positions whose dict has a
`call` key (only BB in the source). -/
structure PosRanges where
  open_raise : List HandNote
  three_bet : List HandNote
  callSet : Option (List HandNote)
  limp : List HandNote

/-- The Python `PREFLOP_RANGES` table (UTG1 and MP1 are aliases of UTG and
MP, as set up after the literal).  Sets are written as duplicate-free
lists. -/
def PREFLOP_RANGES : Position → PosRanges
  | .UTG | .UTG1 =>
    { open_raise :=
        [hn (r"AA"), hn (r"KK"), hn (r"QQ"), hn (r"JJ"), hn (r"TT"), hn (r"99"), hn (r"88"),
         hn (r"AKs"), hn (r"AQs"), hn (r"AJs"), hn (r"ATs"), hn (r"KQs"),
         hn (r"AKo"), hn (r"AQo")],
      three_bet := [hn (r"AA"), hn (r"KK"), hn (r"QQ"), hn (r"AKs"), hn (r"AKo")],
      callSet := none,
      limp := [] }
  | .MP | .MP1 =>
    { open_raise :=
        [hn (r"AA"), hn (r"KK"), hn (r"QQ"), hn (r"JJ"), hn (r"TT"), hn (r"99"), hn (r"88"),
         hn (r"77"),
         hn (r"AKs"), hn (r"AQs"), hn (r"AJs"), hn (r"ATs"), hn (r"A9s"), hn (r"KQs"),
         hn (r"KJs"), hn (r"QJs"), hn (r"JTs"),
         hn (r"AKo"), hn (r"AQo"), hn (r"AJo"), hn (r"KQo")],
      three_bet :=
        [hn (r"AA"), hn (r"KK"), hn (r"QQ"), hn (r"JJ"), hn (r"AKs"), hn (r"AKo"),
         hn (r"AQs")],
      callSet := none,
      limp := [] }
  | .CO =>
    { open_raise :=
        [hn (r"AA"), hn (r"KK"), hn (r"QQ"), hn (r"JJ"), hn (r"TT"), hn (r"99"), hn (r"88"),
         hn (r"77"), hn (r"66"), hn (r"55"),
         hn (r"AKs"), hn (r"AQs"), hn (r"AJs"), hn (r"ATs"), hn (r"A9s"), hn (r"A8s"),
         hn (r"A7s"), hn (r"A6s"), hn (r"A5s"), hn (r"A4s"), hn (r"A3s"), hn (r"A2s"),
         hn (r"KQs"), hn (r"KJs"), hn (r"KTs"), hn (r"K9s"), hn (r"QJs"), hn (r"QTs"),
         hn (r"Q9s"), hn (r"JTs"), hn (r"J9s"), hn (r"T9s"), hn (r"98s"), hn (r"87s"),
         hn (r"76s"),
         hn (r"AKo"), hn (r"AQo"), hn (r"AJo"), hn (r"ATo"), hn (r"KQo"), hn (r"KJo"),
         hn (r"QJo"), hn (r"JTo")],
      three_bet :=
        [hn (r"AA"), hn (r"KK"), hn (r"QQ"), hn (r"JJ"), hn (r"TT"), hn (r"AKs"),
         hn (r"AQs"), hn (r"AJs"), hn (r"AKo"), hn (r"AQo"),
         hn (r"A5s"), hn (r"A4s"), hn (r"76s"), hn (r"65s")],
      callSet := none,
      limp := [] }
  | .BTN =>
    { open_raise :=
        [hn (r"AA"), hn (r"KK"), hn (r"QQ"), hn (r"JJ"), hn (r"TT"), hn (r"99"), hn (r"88"),
         hn (r"77"), hn (r"66"), hn (r"55"), hn (r"44"), hn (r"33"), hn (r"22"),
         hn (r"AKs"), hn (r"AQs"), hn (r"AJs"), hn (r"ATs"), hn (r"A9s"), hn (r"A8s"),
         hn (r"A7s"), hn (r"A6s"), hn (r"A5s"), hn (r"A4s"), hn (r"A3s"), hn (r"A2s"),
         hn (r"KQs"), hn (r"KJs"), hn (r"KTs"), hn (r"K9s"), hn (r"K8s"), hn (r"K7s"),
         hn (r"K6s"), hn (r"K5s"),
         hn (r"QJs"), hn (r"QTs"), hn (r"Q9s"), hn (r"Q8s"), hn (r"JTs"), hn (r"J9s"),
         hn (r"J8s"), hn (r"T9s"), hn (r"T8s"), hn (r"98s"), hn (r"97s"), hn (r"87s"),
         hn (r"86s"), hn (r"76s"), hn (r"75s"), hn (r"65s"), hn (r"64s"), hn (r"54s"),
         hn (r"AKo"), hn (r"AQo"), hn (r"AJo"), hn (r"ATo"), hn (r"A9o"), hn (r"A8o"),
         hn (r"A7o"), hn (r"A6o"), hn (r"A5o"), hn (r"A4o"),
         hn (r"KQo"), hn (r"KJo"), hn (r"KTo"), hn (r"QJo"), hn (r"QTo"), hn (r"JTo"),
         hn (r"J9o"), hn (r"T9o"), hn (r"98o")],
      three_bet :=
        [hn (r"AA"), hn (r"KK"), hn (r"QQ"), hn (r"JJ"), hn (r"TT"), hn (r"99"),
         hn (r"AKs"), hn (r"AQs"), hn (r"AJs"), hn (r"ATs"), hn (r"AKo"), hn (r"AQo"),
         hn (r"AJo"),
         hn (r"A5s"), hn (r"A4s"), hn (r"A3s"), hn (r"76s"), hn (r"65s"), hn (r"54s"),
         hn (r"K9s")],
      callSet := none,
      limp := [] }
  | .SB =>
    { open_raise :=
        [hn (r"AA"), hn (r"KK"), hn (r"QQ"), hn (r"JJ"), hn (r"TT"), hn (r"99"), hn (r"88"),
         hn (r"77"), hn (r"66"), hn (r"55"), hn (r"44"),
         hn (r"AKs"), hn (r"AQs"), hn (r"AJs"), hn (r"ATs"), hn (r"A9s"), hn (r"A8s"),
         hn (r"A7s"), hn (r"A6s"), hn (r"A5s"), hn (r"A4s"), hn (r"A3s"), hn (r"A2s"),
         hn (r"KQs"), hn (r"KJs"), hn (r"KTs"), hn (r"K9s"), hn (r"QJs"), hn (r"QTs"),
         hn (r"JTs"), hn (r"T9s"), hn (r"98s"), hn (r"87s"), hn (r"76s"),
         hn (r"AKo"), hn (r"AQo"), hn (r"AJo"), hn (r"ATo"), hn (r"A9o"), hn (r"KQo"),
         hn (r"KJo"), hn (r"QJo")],
      three_bet :=
        [hn (r"AA"), hn (r"KK"), hn (r"QQ"), hn (r"JJ"), hn (r"TT"), hn (r"AKs"),
         hn (r"AQs"), hn (r"AKo"),
         hn (r"99"), hn (r"88"), hn (r"AJs"), hn (r"A5s"), hn (r"A4s")],
      callSet := none,
      limp :=
        [hn (r"22"), hn (r"33"), hn (r"44"), hn (r"55"), hn (r"66"), hn (r"77"),
         hn (r"54s"), hn (r"65s"), hn (r"76s"), hn (r"87s"), hn (r"98s"), hn (r"T9s"),
         hn (r"J9s"),
         hn (r"A2s"), hn (r"A3s"), hn (r"A4s"), hn (r"A5s")] }
  | .BB =>
    { open_raise := [],
      three_bet :=
        [hn (r"AA"), hn (r"KK"), hn (r"QQ"), hn (r"JJ"), hn (r"TT"), hn (r"AKs"),
         hn (r"AQs"), hn (r"AJs"), hn (r"AKo"), hn (r"AQo"),
         hn (r"99"), hn (r"88"), hn (r"ATs"), hn (r"KQs"), hn (r"A5s"), hn (r"A4s")],
      callSet := some
        [hn (r"AA"), hn (r"KK"), hn (r"QQ"), hn (r"JJ"), hn (r"TT"), hn (r"99"), hn (r"88"),
         hn (r"77"), hn (r"66"), hn (r"55"), hn (r"44"), hn (r"33"), hn (r"22"),
         hn (r"AKs"), hn (r"AQs"), hn (r"AJs"), hn (r"ATs"), hn (r"A9s"), hn (r"A8s"),
         hn (r"A7s"), hn (r"A6s"), hn (r"A5s"), hn (r"A4s"), hn (r"A3s"), hn (r"A2s"),
         hn (r"KQs"), hn (r"KJs"), hn (r"KTs"), hn (r"K9s"), hn (r"K8s"), hn (r"K7s"),
         hn (r"K6s"), hn (r"K5s"),
         hn (r"QJs"), hn (r"QTs"), hn (r"Q9s"), hn (r"Q8s"), hn (r"JTs"), hn (r"J9s"),
         hn (r"J8s"), hn (r"T9s"), hn (r"T8s"), hn (r"98s"), hn (r"97s"), hn (r"87s"),
         hn (r"86s"), hn (r"76s"), hn (r"75s"), hn (r"65s"), hn (r"64s"), hn (r"54s"),
         hn (r"53s"), hn (r"43s"),
         hn (r"AKo"), hn (r"AQo"), hn (r"AJo"), hn (r"ATo"), hn (r"A9o"), hn (r"A8o"),
         hn (r"A7o"), hn (r"KQo"), hn (r"KJo"), hn (r"KTo"), hn (r"QJo"), hn (r"QTo"),
         hn (r"JTo"), hn (r"T9o"), hn (r"98o"), hn (r"87o")],
      limp := [] }

/-- Combos of one hand notation, as in `estimate_preflop_range`: a pair is
6, suited 4, offsuit 12. -/
def combos_of (hand : HandNote) : Nat :=
  if hand.length = 2 then 6
  else if hand.getLastD ('x') = ('s') then 4
  else 12

/-- The `total_combos` accumulation of `estimate_preflop_range`. -/
def total_combos (range_set : List HandNote) : Nat :=
  (range_set.map combos_of).sum

/-- The dict returned by Python `estimate_preflop_range`.  `combo_count` is
an `Option` because the FOLD branch returns a dict without that key. -/
structure RangeEstimate where
  range : List HandNote
  description : String
  hand_count : Nat
  combo_count : Option Nat
  percentage : ℚ
  deriving Repr

/-- Python `estimate_preflop_range(position, action, facing_action)`. -/
def estimate_preflop_range (position : Position) (action : Action)
    (facing_action : Option Action) : RangeEstimate :=
  let pos_ranges := PREFLOP_RANGES position
  if action = .FOLD then
    { range := [], description := (r"Player folded"), hand_count := 0,
      combo_count := none, percentage := 0 }
  else
    let rd : List HandNote × String :=
      if action = .RAISE ∨ action = .BET then
        if facing_action = some .RAISE ∨ facing_action = some .THREE_BET then
          (pos_ranges.three_bet, (r"3-bet range from ") ++ position.pname)
        else
          (pos_ranges.open_raise, (r"Open raise range from ") ++ position.pname)
      else if action = .THREE_BET then
        (pos_ranges.three_bet, (r"3-bet range from ") ++ position.pname)
      else if action = .FOUR_BET then
        ([hn (r"AA"), hn (r"KK"), hn (r"QQ"), hn (r"AKs"), hn (r"AKo")],
         (r"4-bet range (very narrow)"))
      else if action = .ALL_IN then
        ([hn (r"AA"), hn (r"KK"), hn (r"QQ"), hn (r"JJ"), hn (r"AKs"), hn (r"AKo"),
          hn (r"AQs")],
         (r"All-in range (typically premium)"))
      else if action = .CALL then
        if facing_action = some .RAISE then
          (pos_ranges.callSet.getD pos_ranges.open_raise,
           (r"Calling range from ") ++ position.pname)
        else
          (pos_ranges.open_raise, (r"Calling range from ") ++ position.pname)
      else if action = .LIMP then
        let base := pos_ranges.limp
        let rset :=
          if base = [] then
            [hn (r"22"), hn (r"33"), hn (r"44"), hn (r"55"), hn (r"66"), hn (r"77"),
             hn (r"88"),
             hn (r"54s"), hn (r"65s"), hn (r"76s"), hn (r"87s"), hn (r"98s"), hn (r"T9s"),
             hn (r"A2s"), hn (r"A3s"), hn (r"A4s"), hn (r"A5s"), hn (r"K9s"), hn (r"Q9s"),
             hn (r"J9s"),
             hn (r"A9o"), hn (r"KTo"), hn (r"QTo"), hn (r"JTo")]
          else base
        (rset, (r"Limp range from ") ++ position.pname ++ (r" (passive/weak)"))
      else
        (pos_ranges.open_raise, (r"Estimated range from ") ++ position.pname)
    let range_set := rd.1
    let tc := total_combos range_set
    let percentage := ((tc : ℚ) / 1326) * 100
    { range := range_set, description := rd.2, hand_count := range_set.length,
      combo_count := some tc, percentage := round1 percentage }


/-- The four-field dict returned by `analyze_bet_sizing` for a positive pot. -/
structure SizingInfo where
  sizing : String
  typical_range : String
  polarization : String
  strength_indicator : String
  deriving DecidableEq, Repr

/-- Result of Python `analyze_bet_sizing`: either the one-key
`'No pot yet'` dict (pot ≤ 0) or the four-field classification. -/
inductive SizingResult where
  | noPot : SizingResult
  | info : SizingInfo → SizingResult
  deriving DecidableEq, Repr

/-- Python `analyze_bet_sizing(bet_size, pot_size)`. -/
def analyze_bet_sizing (bet_size pot_size : ℚ) : SizingResult :=
  if pot_size ≤ 0 then .noPot
  else
    let bet_ratio := bet_size / pot_size
    if bet_ratio < 33 / 100 then
      .info ⟨(r"Small (< 1/3 pot)"),
             (r"Wide range - blocking bet, thin value, or weak draw"),
             (r"Merged (mixture of value and bluffs)"),
             (r"Usually weak to medium")⟩
    else if bet_ratio < 1 / 2 then
      .info ⟨(r"Small-Medium (1/3 - 1/2 pot)"),
             (r"Moderate strength or drawing hands"),
             (r"Slightly merged"),
             (r"Medium")⟩
    else if bet_ratio < 3 / 4 then
      .info ⟨(r"Medium (1/2 - 3/4 pot)"),
             (r"Standard value bet or semi-bluff"),
             (r"Balanced"),
             (r"Medium to strong")⟩
    else if bet_ratio ≤ 1 then
      .info ⟨(r"Large (3/4 - pot)"),
             (r"Strong value or big draw"),
             (r"Starting to polarize"),
             (r"Strong")⟩
    else if bet_ratio ≤ 3 / 2 then
      .info ⟨(r"Overbet (pot - 1.5x pot)"),
             (r"Very strong or bluff"),
             (r"Polarized"),
             (r"Very strong or air")⟩
    else
      .info ⟨(r"Massive overbet (> 1.5x pot)"),
             (r"Nuts or complete bluff"),
             (r"Extremely polarized"),
             (r"Nuts or nothing")⟩

/-- The `RANKS` list of range_estimator.py / poker_engine.py. -/
def RANKS : List String :=
  [(r"2"), (r"3"), (r"4"), (r"5"), (r"6"), (r"7"), (r"8"), (r"9"), (r"10"),
   (r"J"), (r"Q"), (r"K"), (r"A")]

/-- Python `max(l)` for the non-negative board values (`max` over a list,
0 for the empty list exactly as the source's `if board_values else 0`). -/
def listMax : List Nat → Nat
  | [] => 0
  | x :: xs => max x (listMax xs)

/-- Python `min(l)` on a list of naturals (only applied to non-empty lists
in the source; 0 for the empty list). -/
def listMin : List Nat → Nat
  | [] => 0
  | [x] => x
  | x :: xs => min x (listMin xs)

/-- `len(hand) == 2` of the narrowing loop. -/
def hand_is_pair (h : HandNote) : Bool := h.length == 2

/-- `hand.endswith('s')` of the narrowing loop. -/
def hand_is_suited (h : HandNote) : Bool := h.getLastD ('x') == ('s')

/-- `hand[0]` (hand notations are never empty; the default is never used). -/
def hand_first (h : HandNote) : Char := h.headD ('x')

/-- `c in hand` for a character `c`. -/
def hand_has (c : Char) (h : HandNote) : Bool := h.contains c

/-- `hand.startswith('A')`. -/
def hand_starts_A (h : HandNote) : Bool := hand_first h == ('A')

/-- `hand.startswith('AK')`. -/
def hand_starts_AK (h : HandNote) : Bool :=
  match h with
  | a :: b :: _ => a == ('A') && b == ('K')
  | _ => false

/-- The aggressive-action retention condition of `narrow_range_postflop`,
written as the source's if/elif chain: pair with first char in 'AKQJT98';
or starts with 'A'; or `(is_suited and 'K' in hand) or ('Q' in hand)`
(note Python's precedence: a bare 'Q' suffices); or monotone board and
suited. -/
def keep_aggressive (is_monotone : Bool) (hand : HandNote) : Bool :=
  if hand_is_pair hand && ([('A'), ('K'), ('Q'), ('J'), ('T'), ('9'), ('8')].contains
      (hand_first hand)) then true
  else if hand_starts_A hand then true
  else if (hand_is_suited hand && hand_has ('K') hand) || hand_has ('Q') hand then true
  else if is_monotone && hand_is_suited hand then true
  else false

/-- The FOLD retention condition of `narrow_range_postflop`: not a pair with
first char in 'AKQJT' and not starting with "AK". -/
def keep_fold (hand : HandNote) : Bool :=
  !(hand_is_pair hand && ([('A'), ('K'), ('Q'), ('J'), ('T')].contains (hand_first hand)))
    && !(hand_starts_AK hand)

/-- One iteration of the `for hand in preflop_range` loop of
`narrow_range_postflop`, acting on the (narrowed, removed) accumulator.
Only the aggressive branch ever adds to `removed`; the FOLD branch and the
unhandled actions (LIMP, FOUR_BET) drop hands silently. -/
def narrow_step (action : Action) (is_monotone : Bool)
    (acc : List HandNote × List HandNote) (hand : HandNote) :
    List HandNote × List HandNote :=
  match action with
  | .BET | .RAISE | .THREE_BET | .ALL_IN =>
    if keep_aggressive is_monotone hand then (acc.1 ++ [hand], acc.2)
    else (acc.1, acc.2 ++ [hand])
  | .CALL => (acc.1 ++ [hand], acc.2)
  | .CHECK => (acc.1 ++ [hand], acc.2)
  | .FOLD => if keep_fold hand then (acc.1 ++ [hand], acc.2) else acc
  | _ => acc

/-- The `board_texture` sub-dict of `narrow_range_postflop`'s result. -/
structure BoardTexture where
  monotone : Bool
  two_tone : Bool
  paired : Bool
  connected : Bool
  high_card : String
  deriving DecidableEq, Repr

/-- The dict returned by Python `narrow_range_postflop`. -/
structure NarrowResult where
  range : List HandNote
  removed : List HandNote
  board_texture : BoardTexture
  bet_sizing_analysis : Option SizingResult
  deriving DecidableEq, Repr

/-- Python `narrow_range_postflop(preflop_range, board, action, bet_size,
pot_size)` (the Python defaults are `bet_size=0, pot_size=0`; callers here
always pass them explicitly). -/
def narrow_range_postflop (preflop_range : List HandNote) (board : List Card)
    (action : Action) (bet_size pot_size : ℚ) : NarrowResult :=
  let board_values := board.map Card.rank
  let board_suits := board.map Card.suit
  let is_monotone := (setList board_suits).length == 1
  let is_two_tone := (setList board_suits).length == 2
  let is_paired := decide ((setList board_values).length < board_values.length)
  let high_card := listMax board_values
  let is_connected :=
    if 3 ≤ board_values.length then
      decide (listMax board_values - listMin board_values ≤ 4)
    else false
  let sizing :=
    if 0 < bet_size ∧ 0 < pot_size then some (analyze_bet_sizing bet_size pot_size)
    else none
  let acc := preflop_range.foldl (narrow_step action is_monotone) ([], [])
  let narrowed_range := if acc.1 = [] then preflop_range else acc.1
  { range := narrowed_range,
    removed := acc.2,
    board_texture :=
      { monotone := is_monotone, two_tone := is_two_tone, paired := is_paired,
        connected := is_connected,
        high_card := if high_card ≠ 0 then RANKS.getD high_card (r"None") else (r"None") },
    bet_sizing_analysis := sizing }


/-- The opponent-dealing loop of `calculate_equity_monte_carlo` (the
`for i in range(num_opponents)` loop with its running `idx` into the deck
left after completing the board).  `random.choice` over a candidate list is
modelled by the oracle `pick`, reduced modulo the list length; Python's
out-of-range indexing error on an exhausted deck is modelled by a default
card, which no theorem below relies on. -/
def deal_opponents (deck_after_board : List Card)
    (opponent_ranges : Option (List (List (Card × Card)))) (pick : Nat → Nat)
    (num_opponents : Nat) : List (List Card) :=
  ((List.range num_opponents).foldl
    (fun (st : Nat × List (List Card)) i =>
      let idx := st.1
      let hands := st.2
      match opponent_ranges with
      | some rs =>
        if i < rs.length ∧ rs.getD i [] ≠ [] then
          let r := rs.getD i []
          let combo := r.getD (pick i % r.length) ⟨⟨0, 0⟩, ⟨0, 0⟩⟩
          (idx, hands ++ [[combo.1, combo.2]])
        else
          (idx + 2, hands ++ [[deck_after_board.getD idx ⟨0, 0⟩,
                               deck_after_board.getD (idx + 1) ⟨0, 0⟩]])
      | none =>
        (idx + 2, hands ++ [[deck_after_board.getD idx ⟨0, 0⟩,
                             deck_after_board.getD (idx + 1) ⟨0, 0⟩]]))
    (0, [])).2

/-- The dealing phase of one simulation trial of
`calculate_equity_monte_carlo`: `random.shuffle(remaining_deck)` is modelled
by receiving the shuffled order as `shuffled_remaining`; the board is then
completed with its first `5 - len(board)` cards and opponents are dealt from
the rest.  Returns the completed board and the opponent hands. -/
def monte_carlo_trial_deal (board shuffled_remaining : List Card)
    (num_opponents : Nat) (opponent_ranges : Option (List (List (Card × Card))))
    (pick : Nat → Nat) : List Card × List (List Card) :=
  let cards_to_deal := 5 - board.length
  let sim_board := board ++ shuffled_remaining.take cards_to_deal
  let deck_after_board := shuffled_remaining.drop cards_to_deal
  (sim_board, deal_opponents deck_after_board opponent_ranges pick num_opponents)

/-- All cards dealt within one trial: hero's hole cards, the
board-completion cards, and each opponent's hole cards. -/
def trial_dealt_cards (hole_cards board shuffled_remaining : List Card)
    (num_opponents : Nat) (opponent_ranges : Option (List (List (Card × Card))))
    (pick : Nat → Nat) : List Card :=
  let t := monte_carlo_trial_deal board shuffled_remaining num_opponents
    opponent_ranges pick
  hole_cards ++ t.1.drop board.length ++ t.2.flatten

/-- A five-card hand with four cards of rank `r` (one per suit) and a kicker
of rank `k` and suit `s`; used to state the four-of-a-kind part of the
comparator claim. -/
def quad_hand (r k : Fin 13) (s : Fin 4) : List Card :=
  [⟨r.1, 0⟩, ⟨r.1, 1⟩, ⟨r.1, 2⟩, ⟨r.1, 3⟩, ⟨k.1, s.1⟩]

/-- The wheel A-2-3-4-5 with the given suits. -/
def wheel_hand (s0 s1 s2 s3 s4 : Fin 4) : List Card :=
  [⟨12, s0.1⟩, ⟨0, s1.1⟩, ⟨1, s2.1⟩, ⟨2, s3.1⟩, ⟨3, s4.1⟩]

/-- The 6-high straight 2-3-4-5-6 with the given suits. -/
def six_high_hand (s0 s1 s2 s3 s4 : Fin 4) : List Card :=
  [⟨4, s0.1⟩, ⟨3, s1.1⟩, ⟨2, s2.1⟩, ⟨1, s3.1⟩, ⟨0, s4.1⟩]

/-- Claim C2 as stated: `count_outs` counts exactly the strictly improving
unseen cards, the union of the seven category lists equals exactly that set,
and a categorised card always has its current category strictly below the
resulting one. -/
def c2Statement : Prop :=
  ∀ hole board : List Card,
    ((count_outs hole board).total =
      ((unknown_cards hole board).filter
        (out_improves (evaluate_hand (hole ++ board)) hole board)).length) ∧
    (∀ c : Card, c ∈ outs_union (count_outs hole board) ↔
      c ∈ unknown_cards hole board ∧
        out_improves (evaluate_hand (hole ++ board)) hole board c = true) ∧
    (∀ c : Card, c ∈ outs_union (count_outs hole board) →
      (evaluate_hand (hole ++ board)).1.value < (out_cat hole board c).value)

/-- The board-texture test `len(set(board_suits)) == 1` shared by the
narrowing heuristic and the claim statements about it. -/
def board_is_monotone (board : List Card) : Bool :=
  (setList (board.map Card.suit)).length == 1

/-- Claim C4's aggressive retention predicate, following the spec's words: a
pair of rank nine or higher. -/
def spec_pair_nine_up (h : HandNote) : Bool :=
  hand_is_pair h && ([('A'), ('K'), ('Q'), ('J'), ('T'), ('9')].contains (hand_first h))

/-- Claim C4's aggressive retention predicate, following the spec's words:
a hand containing an ace. -/
def spec_contains_ace (h : HandNote) : Bool := hand_has ('A') h

/-- Claim C4's aggressive retention predicate, following the spec's words: a
suited broadway (both rank characters ten or higher, suited). -/
def spec_suited_broadway (h : HandNote) : Bool :=
  hand_is_suited h && ([('A'), ('K'), ('Q'), ('J'), ('T')].contains (hand_first h))
    && ([('A'), ('K'), ('Q'), ('J'), ('T')].contains (h.getD 1 ('x')))

/-- Claim C4's full aggressive retention predicate as the claim states it:
strong pair (nine up), ace-containing, suited broadway, or any suited hand
on a monotone board. -/
def spec_keep_aggr (mono : Bool) (h : HandNote) : Bool :=
  spec_pair_nine_up h || spec_contains_ace h || spec_suited_broadway h
    || (mono && hand_is_suited h)

/-- Claim C4's FOLD retention predicate as the claim states it: neither a
pair of jacks or better nor AK. -/
def spec_keep_fold (h : HandNote) : Bool :=
  !(hand_is_pair h && ([('A'), ('K'), ('Q'), ('J')].contains (hand_first h)))
    && !(hand_starts_AK h)

/-- Claim C4 as stated: for aggressive actions the narrowed range is exactly
the spec predicate's filter and everything else lands in `removed`; for FOLD
the narrowed range is exactly the non-(JJ+/AK) hands. -/
def c4Statement : Prop :=
  ∀ (range : List HandNote) (board : List Card) (a : Action) (bet pot : ℚ),
    range ≠ [] →
    ((a = .BET ∨ a = .RAISE ∨ a = .THREE_BET ∨ a = .ALL_IN) →
      (∀ h, h ∈ (narrow_range_postflop range board a bet pot).range ↔
        h ∈ range ∧ spec_keep_aggr (board_is_monotone board) h = true) ∧
      (∀ h, h ∈ (narrow_range_postflop range board a bet pot).removed ↔
        h ∈ range ∧ spec_keep_aggr (board_is_monotone board) h = false)) ∧
    (∀ h, h ∈ (narrow_range_postflop range board .FOLD bet pot).range ↔
      h ∈ range ∧ spec_keep_fold h = true)

/-- Claim C5 as stated: thresholding against the exact (unrounded) required
equity `call/(pot+call)*100`, and the exact (unrounded) expected value. -/
def c5Statement : Prop :=
  ∀ pot call equity stack : ℚ,
    (call = 0 →
      (analyze_decision pot call equity stack).recommended_action = (r"CHECK")) ∧
    (call ≠ 0 →
      (call / (pot + call) * 100 < equity →
        (20 < equity - call / (pot + call) * 100 →
          (analyze_decision pot call equity stack).recommended_action = (r"RAISE")) ∧
        (equity - call / (pot + call) * 100 ≤ 20 →
          10 < equity - call / (pot + call) * 100 →
          (analyze_decision pot call equity stack).recommended_action = (r"CALL")) ∧
        (equity - call / (pot + call) * 100 ≤ 10 →
          (analyze_decision pot call equity stack).recommended_action =
            (r"CALL (marginal)"))) ∧
      (equity ≤ call / (pot + call) * 100 →
        (15 < call / (pot + call) * 100 - equity →
          (analyze_decision pot call equity stack).recommended_action = (r"FOLD")) ∧
        (call / (pot + call) * 100 - equity ≤ 15 →
          (analyze_decision pot call equity stack).recommended_action =
            (r"FOLD (close)")))) ∧
    (analyze_decision pot call equity stack).expected_value =
      equity / 100 * (pot + call) - (1 - equity / 100) * call

/-- Claim C7 as stated: the call ≤ 0 sentinel, and for call > 0 the exact
(unrounded) ratio `pot/call` and required equity `call/(pot+call)*100`. -/
def c7Statement : Prop :=
  ∀ pot call : ℚ,
    (call ≤ 0 → calculate_pot_odds pot call = ⟨0, 0, 0⟩) ∧
    (0 < call →
      (calculate_pot_odds pot call).ratio = pot / call ∧
      (calculate_pot_odds pot call).required_equity = call / (pot + call) * 100)



/-- The retention test that one `narrow_step` iteration applies for a given
action (hands neither retained nor removed are dropped). -/
def narrow_keep (action : Action) (is_monotone : Bool) (hand : HandNote) : Bool :=
  match action with
  | .BET | .RAISE | .THREE_BET | .ALL_IN => keep_aggressive is_monotone hand
  | .CALL => true
  | .CHECK => true
  | .FOLD => keep_fold hand
  | _ => false

/-- Whether one `narrow_step` iteration adds the hand to the removed set
(only the aggressive branch ever does). -/
def narrow_rem (action : Action) (is_monotone : Bool) (hand : HandNote) : Bool :=
  match action with
  | .BET | .RAISE | .THREE_BET | .ALL_IN => !(keep_aggressive is_monotone hand)
  | _ => false

/-- The aggressive retention rule of the amended claim C4, as a proposition
on the hand notation: a pair of rank eight or higher, a hand starting with
an ace, a suited hand containing a king, any hand containing a queen, or
any suited hand on a monotone board. -/
def amendedKeepAggr (mono : Bool) (h : HandNote) : Prop :=
  (hand_is_pair h = true ∧ hand_first h ∈ [('A'), ('K'), ('Q'), ('J'), ('T'), ('9'), ('8')]) ∨
  hand_starts_A h = true ∨
  (hand_is_suited h = true ∧ hand_has ('K') h = true) ∨
  hand_has ('Q') h = true ∨
  (mono = true ∧ hand_is_suited h = true)

/-- The FOLD retention rule of the amended claim C4, as a proposition: not a
pair of rank ten or higher, and not starting with "AK". -/
def amendedKeepFold (h : HandNote) : Prop :=
  ¬(hand_is_pair h = true ∧ hand_first h ∈ [('A'), ('K'), ('Q'), ('J'), ('T')]) ∧
  ¬(hand_starts_AK h = true)

instance (mono : Bool) (h : HandNote) : Decidable (amendedKeepAggr mono h) := by
  unfold amendedKeepAggr
  infer_instance

instance (h : HandNote) : Decidable (amendedKeepFold h) := by
  unfold amendedKeepFold
  infer_instance

/-! Theorems.  Helper lemmas come first; each claim is settled by a single
theorem named after it (with a separate witness or counterexample theorem
where required). -/

theorem cmpTiebreak_antisymm (l1 l2 : List Nat) :
    cmpTiebreak l1 l2 = -cmpTiebreak l2 l1 := by
  induction l1 generalizing l2 with
  | nil => cases l2 <;> simp [cmpTiebreak]
  | cons x t ih =>
    cases l2 with
    | nil => simp [cmpTiebreak]
    | cons y t2 =>
      simp only [cmpTiebreak]
      split_ifs <;> first | omega | exact ih t2

theorem compare_hands_antisymm (a b : HandRank × List Nat) :
    compare_hands a b = -compare_hands b a := by
  unfold compare_hands
  split_ifs <;> first | omega | exact cmpTiebreak_antisymm a.2 b.2

theorem cmpTiebreak_trans (l1 l2 l3 : List Nat) (h12 : cmpTiebreak l1 l2 = 1)
    (h23 : cmpTiebreak l2 l3 = 1) : cmpTiebreak l1 l3 = 1 := by
  induction l1 generalizing l2 l3 with
  | nil => simp [cmpTiebreak] at h12
  | cons x t ih =>
    cases l2 with
    | nil => simp [cmpTiebreak] at h12
    | cons y u =>
      cases l3 with
      | nil => simp [cmpTiebreak] at h23
      | cons z v =>
        simp only [cmpTiebreak] at h12 h23 ⊢
        split_ifs at h12 with h1 h2 <;> split_ifs at h23 with h3 h4 <;>
          first
          | omega
          | (rw [if_pos (by omega)])
          | (rw [if_neg (by omega), if_neg (by omega)]; exact ih u v h12 h23)

theorem compare_hands_trans (a b c : HandRank × List Nat)
    (hab : compare_hands a b = 1) (hbc : compare_hands b c = 1) :
    compare_hands a c = 1 := by
  unfold compare_hands at hab hbc ⊢
  split_ifs at hab with p1 p2 <;> split_ifs at hbc with q1 q2 <;>
    first
    | omega
    | (rw [if_pos (by omega)])
    | (rw [if_neg (by omega), if_neg (by omega)]; exact cmpTiebreak_trans a.2 b.2 c.2 hab hbc)

set_option maxHeartbeats 1000000 in
theorem quad_eval : ∀ r k : Fin 13, ∀ s : Fin 4, r ≠ k →
    evaluate_five_cards (quad_hand r k s) = (HandRank.FOUR_OF_A_KIND, [r.1, k.1]) := by
  decide

set_option maxHeartbeats 1000000 in
theorem wheel_eval : ∀ s0 s1 s2 s3 s4 : Fin 4, ¬(s0 = s1 ∧ s1 = s2 ∧ s2 = s3 ∧ s3 = s4) →
    evaluate_five_cards (wheel_hand s0 s1 s2 s3 s4) = (HandRank.STRAIGHT, [3]) := by
  decide

set_option maxHeartbeats 1000000 in
theorem six_high_eval : ∀ s0 s1 s2 s3 s4 : Fin 4, ¬(s0 = s1 ∧ s1 = s2 ∧ s2 = s3 ∧ s3 = s4) →
    evaluate_five_cards (six_high_hand s0 s1 s2 s3 s4) = (HandRank.STRAIGHT, [4]) := by
  decide

/-- Claim C1: the hand comparator is a total order consistent with poker
hand strength — `compare_hands` on evaluated hands is antisymmetric and
transitive; a royal flush compares strictly greater than any straight
flush; a four-of-a-kind hand evaluates to the `[quad rank, kicker]`
tiebreak vector and two such hands are ranked by quad rank then kicker; the
wheel A-2-3-4-5 evaluates as a 5-high straight (tiebreak value 3) and
compares strictly below a 6-high straight. -/
theorem c1_comparator_total_order :
    (∀ a b : List Card,
      compare_hands (evaluate_hand a) (evaluate_hand b) =
        -compare_hands (evaluate_hand b) (evaluate_hand a)) ∧
    (∀ a b c : List Card,
      compare_hands (evaluate_hand a) (evaluate_hand b) = 1 →
      compare_hands (evaluate_hand b) (evaluate_hand c) = 1 →
      compare_hands (evaluate_hand a) (evaluate_hand c) = 1) ∧
    (∀ a b : List Card, (evaluate_hand a).1 = HandRank.ROYAL_FLUSH →
      (evaluate_hand b).1 = HandRank.STRAIGHT_FLUSH →
      compare_hands (evaluate_hand a) (evaluate_hand b) = 1) ∧
    (∀ r k : Fin 13, ∀ s : Fin 4, r ≠ k →
      evaluate_five_cards (quad_hand r k s) = (HandRank.FOUR_OF_A_KIND, [r.1, k.1])) ∧
    (∀ r1 k1 r2 k2 : Nat,
      compare_hands (HandRank.FOUR_OF_A_KIND, [r1, k1])
        (HandRank.FOUR_OF_A_KIND, [r2, k2]) = 1 ↔ (r2 < r1 ∨ (r1 = r2 ∧ k2 < k1))) ∧
    (∀ s0 s1 s2 s3 s4 : Fin 4, ¬(s0 = s1 ∧ s1 = s2 ∧ s2 = s3 ∧ s3 = s4) →
      evaluate_five_cards (wheel_hand s0 s1 s2 s3 s4) = (HandRank.STRAIGHT, [3])) ∧
    (∀ s0 s1 s2 s3 s4 t0 t1 t2 t3 t4 : Fin 4,
      ¬(s0 = s1 ∧ s1 = s2 ∧ s2 = s3 ∧ s3 = s4) →
      ¬(t0 = t1 ∧ t1 = t2 ∧ t2 = t3 ∧ t3 = t4) →
      compare_hands (evaluate_five_cards (wheel_hand s0 s1 s2 s3 s4))
        (evaluate_five_cards (six_high_hand t0 t1 t2 t3 t4)) = -1) := by
  refine ⟨fun a b => compare_hands_antisymm _ _,
          fun a b c => compare_hands_trans _ _ _,
          ?_, quad_eval, ?_, wheel_eval, ?_⟩
  · intro a b ha hb
    simp [compare_hands, ha, hb, HandRank.value]
  · intro r1 k1 r2 k2
    dsimp only [compare_hands, cmpTiebreak, HandRank.value]
    split_ifs <;> first | omega | (simp only [false_iff]; omega)
  · intro s0 s1 s2 s3 s4 t0 t1 t2 t3 t4 hs ht
    rw [wheel_eval s0 s1 s2 s3 s4 hs, six_high_eval t0 t1 t2 t3 t4 ht]
    decide

theorem c1_comparator_total_order_witness :
    compare_hands (evaluate_hand [⟨12, 0⟩, ⟨11, 0⟩, ⟨10, 0⟩, ⟨9, 0⟩, ⟨8, 0⟩])
      (evaluate_hand [⟨11, 1⟩, ⟨10, 1⟩, ⟨9, 1⟩, ⟨8, 1⟩, ⟨7, 1⟩]) = 1 ∧
    compare_hands (evaluate_hand [⟨12, 0⟩, ⟨11, 0⟩, ⟨10, 0⟩, ⟨9, 0⟩, ⟨8, 0⟩])
      (evaluate_hand [⟨3, 0⟩, ⟨3, 1⟩, ⟨3, 2⟩, ⟨3, 3⟩, ⟨5, 0⟩]) = 1 ∧
    evaluate_five_cards (quad_hand 12 0 0) = (HandRank.FOUR_OF_A_KIND, [12, 0]) ∧
    evaluate_five_cards (wheel_hand 0 0 0 0 1) = (HandRank.STRAIGHT, [3]) ∧
    compare_hands (evaluate_five_cards (wheel_hand 0 0 0 0 1))
      (evaluate_five_cards (six_high_hand 0 0 0 0 1)) = -1 :=
  ⟨c1_comparator_total_order.2.2.1 _ _ (by decide) (by decide),
   c1_comparator_total_order.2.1 _ [⟨11, 1⟩, ⟨10, 1⟩, ⟨9, 1⟩, ⟨8, 1⟩, ⟨7, 1⟩] _
     (by decide) (by decide),
   c1_comparator_total_order.2.2.2.1 12 0 0 (by decide),
   c1_comparator_total_order.2.2.2.2.2.1 0 0 0 0 1 (by decide),
   c1_comparator_total_order.2.2.2.2.2.2 0 0 0 0 1 0 0 0 0 1 (by decide) (by decide)⟩

theorem cmpTiebreak_zero_of_agree (v1 v2 : List Nat)
    (h : (v1.zip v2).all (fun p => p.1 == p.2) = true) : cmpTiebreak v1 v2 = 0 := by
  induction v1 generalizing v2 with
  | nil => cases v2 <;> simp [cmpTiebreak]
  | cons x t ih =>
    cases v2 with
    | nil => simp [cmpTiebreak]
    | cons y u =>
      simp only [List.zip_cons_cons, List.all_cons, Bool.and_eq_true, beq_iff_eq] at h
      obtain ⟨hxy, hrest⟩ := h
      subst hxy
      simp only [cmpTiebreak]
      rw [if_neg (by omega), if_neg (by omega)]
      exact ih u hrest

/-- Claim C10: `compare_hands` returns 0 (tie) whenever the two hands have
the same category and their tiebreak vectors agree on every position of the
shorter vector, even when the vectors have different lengths; in particular
the under-5-cards sentinel `(HIGH_CARD, [0])` ties with any same-category
hand whose tiebreak vector begins with 0. -/
theorem c10_zip_tie :
    (∀ (r : HandRank) (v1 v2 : List Nat),
      (v1.zip v2).all (fun p => p.1 == p.2) = true →
      compare_hands (r, v1) (r, v2) = 0) ∧
    (∀ rest : List Nat,
      compare_hands (HandRank.HIGH_CARD, [0]) (HandRank.HIGH_CARD, 0 :: rest) = 0) := by
  constructor
  · intro r v1 v2 h
    dsimp only [compare_hands]
    rw [if_neg (by omega), if_neg (by omega)]
    exact cmpTiebreak_zero_of_agree v1 v2 h
  · intro rest
    dsimp only [compare_hands]
    rw [if_neg (by omega), if_neg (by omega)]
    simp [cmpTiebreak]

theorem c10_zip_tie_witness :
    compare_hands (HandRank.FLUSH, [9, 7]) (HandRank.FLUSH, [9, 7, 3]) = 0 ∧
    compare_hands (HandRank.HIGH_CARD, [0]) (HandRank.HIGH_CARD, [0, 11, 5]) = 0 :=
  ⟨c10_zip_tie.1 HandRank.FLUSH [9, 7] [9, 7, 3] (by decide),
   c10_zip_tie.2 [11, 5]⟩


theorem outs_step_eq (cur : HandRank × List Nat) (hole board : List Card) (o : OutsReport)
    (c : Card) :
    outs_step cur hole board o c =
      { total := o.total + (if out_improves cur hole board c then 1 else 0),
        to_straight := o.to_straight ++ (if out_to_straight cur hole board c then [c] else []),
        to_flush := o.to_flush ++ (if out_to_flush cur hole board c then [c] else []),
        to_pair := o.to_pair ++ (if out_to_pair cur hole board c then [c] else []),
        to_two_pair := o.to_two_pair ++ (if out_to_two_pair cur hole board c then [c] else []),
        to_trips := o.to_trips ++ (if out_to_trips cur hole board c then [c] else []),
        to_full_house := o.to_full_house ++ (if out_to_full_house cur hole board c then [c] else []),
        to_quads := o.to_quads ++ (if out_to_quads cur hole board c then [c] else []),
        overcards := o.overcards } := by
  simp only [outs_step, out_improves, out_to_straight, out_to_flush, out_to_pair,
    out_to_two_pair, out_to_trips, out_to_full_house, out_to_quads, out_cat]
  by_cases himp : pyEvalGt (evaluate_hand (hole ++ board ++ [c])) cur = true
  case neg =>
    simp only [Bool.not_eq_true] at himp
    simp only [himp]
    simp
  case pos =>
    simp only [himp]
    cases hcat : (evaluate_hand (hole ++ board ++ [c])).1 <;> (try simp only [hcat]) <;>
      (try simp) <;> (try split_ifs) <;> simp_all

theorem outs_fold_eq (cur : HandRank × List Nat) (hole board : List Card) (l : List Card)
    (o : OutsReport) :
    l.foldl (outs_step cur hole board) o =
      { total := o.total + (l.filter (out_improves cur hole board)).length,
        to_straight := o.to_straight ++ l.filter (out_to_straight cur hole board),
        to_flush := o.to_flush ++ l.filter (out_to_flush cur hole board),
        to_pair := o.to_pair ++ l.filter (out_to_pair cur hole board),
        to_two_pair := o.to_two_pair ++ l.filter (out_to_two_pair cur hole board),
        to_trips := o.to_trips ++ l.filter (out_to_trips cur hole board),
        to_full_house := o.to_full_house ++ l.filter (out_to_full_house cur hole board),
        to_quads := o.to_quads ++ l.filter (out_to_quads cur hole board),
        overcards := o.overcards } := by
  induction l generalizing o with
  | nil => simp
  | cons c t ih =>
    rw [List.foldl_cons, outs_step_eq, ih]
    simp only [List.filter_cons, OutsReport.mk.injEq]
    refine ⟨?_, ?_, ?_, ?_, ?_, ?_, ?_, ?_, trivial⟩ <;>
      split_ifs <;> simp [List.append_assoc] <;> omega

theorem count_outs_spec (hole board : List Card) :
    count_outs hole board =
      { total := ((unknown_cards hole board).filter
          (out_improves (evaluate_hand (hole ++ board)) hole board)).length,
        to_straight := (unknown_cards hole board).filter
          (out_to_straight (evaluate_hand (hole ++ board)) hole board),
        to_flush := (unknown_cards hole board).filter
          (out_to_flush (evaluate_hand (hole ++ board)) hole board),
        to_pair := (unknown_cards hole board).filter
          (out_to_pair (evaluate_hand (hole ++ board)) hole board),
        to_two_pair := (unknown_cards hole board).filter
          (out_to_two_pair (evaluate_hand (hole ++ board)) hole board),
        to_trips := (unknown_cards hole board).filter
          (out_to_trips (evaluate_hand (hole ++ board)) hole board),
        to_full_house := (unknown_cards hole board).filter
          (out_to_full_house (evaluate_hand (hole ++ board)) hole board),
        to_quads := (unknown_cards hole board).filter
          (out_to_quads (evaluate_hand (hole ++ board)) hole board),
        overcards := [] } := by
  unfold count_outs
  rw [outs_fold_eq]
  simp

/-- Claim C9: the `overcards` list in the mapping returned by `count_outs`
is the empty list for every input — `count_outs` initialises the key but no
branch of its categorisation ever appends to it. -/
theorem c9_overcards_always_empty :
    ∀ hole board : List Card, (count_outs hole board).overcards = [] := by
  intro hole board
  rw [count_outs_spec]

/-- Claim C2 (amended): `count_outs` counts an unseen card in `total` iff
adding it strictly improves the evaluation; each category list is exactly
the improving cards whose resulting best-hand category matches it, subject
to the source's guards (straight outs only when not already a straight,
flush outs only when not already a flush, full-house and two-pair outs only
when the current category is strictly lower; quads, trips and pair outs are
unconditional).  Consequently the union of the seven lists only contains
strictly improving cards, but misses improving cards whose resulting
category is HIGH_CARD or ROYAL_FLUSH or that only improve within an
already-reached category. -/
theorem c2_outs_characterization :
    ∀ hole board : List Card,
      ((count_outs hole board).total = ((unknown_cards hole board).filter
        (out_improves (evaluate_hand (hole ++ board)) hole board)).length) ∧
      ((count_outs hole board).to_straight = (unknown_cards hole board).filter
        (out_to_straight (evaluate_hand (hole ++ board)) hole board)) ∧
      ((count_outs hole board).to_flush = (unknown_cards hole board).filter
        (out_to_flush (evaluate_hand (hole ++ board)) hole board)) ∧
      ((count_outs hole board).to_pair = (unknown_cards hole board).filter
        (out_to_pair (evaluate_hand (hole ++ board)) hole board)) ∧
      ((count_outs hole board).to_two_pair = (unknown_cards hole board).filter
        (out_to_two_pair (evaluate_hand (hole ++ board)) hole board)) ∧
      ((count_outs hole board).to_trips = (unknown_cards hole board).filter
        (out_to_trips (evaluate_hand (hole ++ board)) hole board)) ∧
      ((count_outs hole board).to_full_house = (unknown_cards hole board).filter
        (out_to_full_house (evaluate_hand (hole ++ board)) hole board)) ∧
      ((count_outs hole board).to_quads = (unknown_cards hole board).filter
        (out_to_quads (evaluate_hand (hole ++ board)) hole board)) ∧
      (∀ c : Card, c ∈ outs_union (count_outs hole board) →
        c ∈ unknown_cards hole board ∧
          out_improves (evaluate_hand (hole ++ board)) hole board c = true) := by
  intro hole board
  rw [count_outs_spec]
  refine ⟨rfl, rfl, rfl, rfl, rfl, rfl, rfl, rfl, ?_⟩
  intro c hc
  simp only [outs_union, List.mem_append, List.mem_filter, out_to_straight, out_to_flush,
    out_to_pair, out_to_two_pair, out_to_trips, out_to_full_house, out_to_quads,
    Bool.and_eq_true] at hc
  tauto

/-- Claim C2 as stated is false: on hole 2-H 3-D and board 5-C 9-H 7-S the
king of hearts strictly improves the evaluation (to a better high card) yet
appears in none of the seven category lists, so the union of the category
lists is not the set of strictly improving unseen cards. -/
theorem c2_counterexample : ¬ c2Statement := by
  intro hc
  have h := (hc [⟨0, 0⟩, ⟨1, 1⟩] [⟨3, 2⟩, ⟨5, 3⟩, ⟨7, 0⟩]).2.1 ⟨11, 0⟩
  have hmem := h.mpr ⟨by decide, by decide⟩
  rw [count_outs_spec] at hmem
  simp only [outs_union, List.mem_append, List.mem_filter] at hmem
  exact absurd hmem (by decide)


theorem narrow_step_eq (action : Action) (mono : Bool) (acc : List HandNote × List HandNote)
    (h : HandNote) :
    narrow_step action mono acc h =
      (acc.1 ++ (if narrow_keep action mono h then [h] else []),
       acc.2 ++ (if narrow_rem action mono h then [h] else [])) := by
  cases action <;> simp [narrow_step, narrow_keep, narrow_rem] <;> split_ifs <;> simp_all

theorem narrow_fold_eq (action : Action) (mono : Bool) (l : List HandNote)
    (acc : List HandNote × List HandNote) :
    l.foldl (narrow_step action mono) acc =
      (acc.1 ++ l.filter (narrow_keep action mono),
       acc.2 ++ l.filter (narrow_rem action mono)) := by
  induction l generalizing acc with
  | nil => simp
  | cons h t ih =>
    rw [List.foldl_cons, narrow_step_eq, ih]
    simp only [List.filter_cons, Prod.mk.injEq]
    constructor <;> split_ifs <;> simp

theorem narrow_range_spec (preflop_range : List HandNote) (board : List Card)
    (action : Action) (bet pot : ℚ) :
    (narrow_range_postflop preflop_range board action bet pot).range =
      (if preflop_range.filter (narrow_keep action (board_is_monotone board)) = []
       then preflop_range
       else preflop_range.filter (narrow_keep action (board_is_monotone board))) ∧
    (narrow_range_postflop preflop_range board action bet pot).removed =
      preflop_range.filter (narrow_rem action (board_is_monotone board)) := by
  simp only [narrow_range_postflop, board_is_monotone]
  rw [narrow_fold_eq]
  simp

theorem keep_aggressive_iff (mono : Bool) (h : HandNote) :
    keep_aggressive mono h = true ↔ amendedKeepAggr mono h := by
  unfold keep_aggressive amendedKeepAggr
  split_ifs with h1 h2 h3 h4 <;> simp_all <;> tauto

theorem keep_fold_iff (h : HandNote) :
    keep_fold h = true ↔ amendedKeepFold h := by
  unfold keep_fold amendedKeepFold
  cases hp : hand_is_pair h <;> cases hak : hand_starts_AK h <;> simp [hp, hak]

/-- Claim C4 (amended): for aggressive actions (BET, RAISE, THREE_BET,
ALL_IN) the heuristic retains exactly the hands that are pairs of rank
eight or higher, hands starting with an ace, suited hands containing a
king, any hand containing a queen (Python's `and`/`or` precedence makes the
bare queen test suffice), or any suited hand on a monotone board, and
discards every other hand into the removed set — except that when no hand
qualifies the whole input range is returned while `removed` still holds all
the hands.  For FOLD it retains exactly the hands that are neither pairs of
ten or higher nor starting with "AK" (with the same empty fallback), and
removes nothing into `removed`. -/
theorem c4_narrow_amended :
    ∀ (range : List HandNote) (board : List Card) (a : Action) (bet pot : ℚ),
      ((a = .BET ∨ a = .RAISE ∨ a = .THREE_BET ∨ a = .ALL_IN) →
        (∀ h, h ∈ (narrow_range_postflop range board a bet pot).removed ↔
          h ∈ range ∧ ¬ amendedKeepAggr (board_is_monotone board) h) ∧
        ((∃ g ∈ range, amendedKeepAggr (board_is_monotone board) g) →
          ∀ h, h ∈ (narrow_range_postflop range board a bet pot).range ↔
            h ∈ range ∧ amendedKeepAggr (board_is_monotone board) h) ∧
        ((∀ g ∈ range, ¬ amendedKeepAggr (board_is_monotone board) g) →
          (narrow_range_postflop range board a bet pot).range = range)) ∧
      ((∃ g ∈ range, amendedKeepFold g) →
        ∀ h, h ∈ (narrow_range_postflop range board .FOLD bet pot).range ↔
          h ∈ range ∧ amendedKeepFold h) ∧
      ((∀ g ∈ range, ¬ amendedKeepFold g) →
        (narrow_range_postflop range board .FOLD bet pot).range = range) ∧
      ((narrow_range_postflop range board .FOLD bet pot).removed = []) := by
  intro range board a bet pot
  refine ⟨?_, ?_, ?_, ?_⟩
  · intro ha
    have hk : narrow_keep a (board_is_monotone board) =
        keep_aggressive (board_is_monotone board) := by
      rcases ha with rfl | rfl | rfl | rfl <;> rfl
    have hr : narrow_rem a (board_is_monotone board) =
        fun h => !(keep_aggressive (board_is_monotone board) h) := by
      rcases ha with rfl | rfl | rfl | rfl <;> rfl
    refine ⟨?_, ?_, ?_⟩
    · intro h
      rw [(narrow_range_spec range board a bet pot).2, hr]
      simp [List.mem_filter, Bool.eq_false_iff, keep_aggressive_iff]
    · intro hex h
      rw [(narrow_range_spec range board a bet pot).1, hk]
      rw [if_neg]
      · simp [List.mem_filter, keep_aggressive_iff]
      · simp only [ne_eq, List.filter_eq_nil_iff]
        push_neg
        obtain ⟨g, hg, hkeep⟩ := hex
        exact ⟨g, hg, (keep_aggressive_iff _ _).mpr hkeep⟩
    · intro hall
      rw [(narrow_range_spec range board a bet pot).1, hk]
      rw [if_pos]
      simp only [List.filter_eq_nil_iff]
      intro g hg
      simp [keep_aggressive_iff]
      exact hall g hg
  · intro hex h
    rw [(narrow_range_spec range board .FOLD bet pot).1]
    have hk : narrow_keep .FOLD (board_is_monotone board) = keep_fold := rfl
    rw [hk, if_neg]
    · simp [List.mem_filter, keep_fold_iff]
    · simp only [ne_eq, List.filter_eq_nil_iff]
      push_neg
      obtain ⟨g, hg, hkeep⟩ := hex
      exact ⟨g, hg, (keep_fold_iff _).mpr hkeep⟩
  · intro hall
    rw [(narrow_range_spec range board .FOLD bet pot).1]
    have hk : narrow_keep .FOLD (board_is_monotone board) = keep_fold := rfl
    rw [hk, if_pos]
    simp only [List.filter_eq_nil_iff]
    intro g hg
    simp [keep_fold_iff]
    exact hall g hg
  · rw [(narrow_range_spec range board .FOLD bet pot).2]
    have hr : narrow_rem .FOLD (board_is_monotone board) = fun _ => false := rfl
    rw [hr]
    simp

theorem c4_narrow_amended_witness :
    ([('8'), ('8')] ∈ (narrow_range_postflop [[('8'), ('8')], [('7'), ('2'), ('o')]]
      [⟨0, 0⟩, ⟨5, 1⟩, ⟨11, 2⟩] .BET 0 0).range ↔
      [('8'), ('8')] ∈ [[('8'), ('8')], [('7'), ('2'), ('o')]] ∧
        amendedKeepAggr (board_is_monotone [⟨0, 0⟩, ⟨5, 1⟩, ⟨11, 2⟩]) [('8'), ('8')]) ∧
    ([('7'), ('2'), ('o')] ∈ (narrow_range_postflop [[('8'), ('8')], [('7'), ('2'), ('o')]]
      [⟨0, 0⟩, ⟨5, 1⟩, ⟨11, 2⟩] .BET 0 0).removed ↔
      [('7'), ('2'), ('o')] ∈ [[('8'), ('8')], [('7'), ('2'), ('o')]] ∧
        ¬ amendedKeepAggr (board_is_monotone [⟨0, 0⟩, ⟨5, 1⟩, ⟨11, 2⟩]) [('7'), ('2'), ('o')]) :=
  ⟨((c4_narrow_amended [[('8'), ('8')], [('7'), ('2'), ('o')]] [⟨0, 0⟩, ⟨5, 1⟩, ⟨11, 2⟩]
      .BET 0 0).1 (Or.inl rfl)).2.1
      ⟨[('8'), ('8')], by decide⟩ [('8'), ('8')],
   ((c4_narrow_amended [[('8'), ('8')], [('7'), ('2'), ('o')]] [⟨0, 0⟩, ⟨5, 1⟩, ⟨11, 2⟩]
      .BET 0 0).1 (Or.inl rfl)).1 [('7'), ('2'), ('o')]⟩

/-- Claim C4 as stated is false: with input range containing only the hand
"88", a non-monotone board 2-H 7-D K-C and action BET, the source retains
"88" (its pair test accepts pairs of eight or higher), while the claim's
predicate (pairs of NINE or higher, aces, suited broadways, suited on
monotone) rejects it. -/
theorem c4_counterexample : ¬ c4Statement := by
  intro hc
  have h := ((hc [[('8'), ('8')]] [⟨0, 0⟩, ⟨5, 1⟩, ⟨11, 2⟩] .BET 0 0 (by decide)).1
    (Or.inl rfl)).1 [('8'), ('8')]
  have hmem : [('8'), ('8')] ∈ (narrow_range_postflop [[('8'), ('8')]]
      [⟨0, 0⟩, ⟨5, 1⟩, ⟨11, 2⟩] .BET 0 0).range := by decide
  have := (h.mp hmem).2
  exact absurd this (by decide)

/-- Claim C6: for every non-empty input range, every board and every
action, `narrow_range_postflop` returns a non-empty range; and whenever the
narrowing heuristic would leave the retained set empty (no hand of the
input range passes the retention test of the action), the original input
range is returned unchanged. -/
theorem c6_narrow_nonempty :
    ∀ (preflop_range : List HandNote) (board : List Card) (action : Action) (bet pot : ℚ),
      (preflop_range ≠ [] →
        (narrow_range_postflop preflop_range board action bet pot).range ≠ []) ∧
      (preflop_range.filter (narrow_keep action (board_is_monotone board)) = [] →
        (narrow_range_postflop preflop_range board action bet pot).range =
          preflop_range) := by
  intro pr board action bet pot
  constructor
  · intro hne
    rw [(narrow_range_spec pr board action bet pot).1]
    split_ifs with hf
    · exact hne
    · exact hf
  · intro hempty
    rw [(narrow_range_spec pr board action bet pot).1, if_pos hempty]

theorem c6_narrow_nonempty_witness :
    ((narrow_range_postflop [[('7'), ('2'), ('o')]] [⟨0, 0⟩, ⟨5, 1⟩, ⟨11, 2⟩]
      .BET 0 0).range ≠ []) ∧
    ((narrow_range_postflop [[('7'), ('2'), ('o')]] [⟨0, 0⟩, ⟨5, 1⟩, ⟨11, 2⟩]
      .BET 0 0).range = [[('7'), ('2'), ('o')]]) :=
  ⟨(c6_narrow_nonempty [[('7'), ('2'), ('o')]] [⟨0, 0⟩, ⟨5, 1⟩, ⟨11, 2⟩] .BET 0 0).1
     (by decide),
   (c6_narrow_nonempty [[('7'), ('2'), ('o')]] [⟨0, 0⟩, ⟨5, 1⟩, ⟨11, 2⟩] .BET 0 0).2
     (by decide)⟩


theorem pyRound_eq (x : ℚ) (f : ℤ) (hf : ⌊x⌋ = f) (hlt : x - f < 1 / 2) : pyRound x = f := by
  unfold pyRound
  rw [hf, if_pos hlt]

theorem round1_eq (x : ℚ) (f : ℤ) (hf : ⌊10 * x⌋ = f) (hlt : 10 * x - f < 1 / 2) :
    round1 x = (f : ℚ) / 10 := by
  unfold round1
  rw [pyRound_eq (10 * x) f hf hlt]

theorem round2_eq (x : ℚ) (f : ℤ) (hf : ⌊100 * x⌋ = f) (hlt : 100 * x - f < 1 / 2) :
    round2 x = (f : ℚ) / 100 := by
  unfold round2
  rw [pyRound_eq (100 * x) f hf hlt]

theorem required_equity_100_50 : (calculate_pot_odds 100 50).required_equity = 333 / 10 := by
  unfold calculate_pot_odds
  rw [if_neg (by norm_num)]
  show round1 (50 / (100 + 50) * 100) = 333 / 10
  rw [round1_eq _ 333 (by norm_num [Int.floor_eq_iff]) (by norm_num [Int.floor_eq_iff])]
  norm_num

/-- Claim C7 (amended): for every call ≤ 0 `calculate_pot_odds` returns the
zero-cost sentinel (ratio 0, percentage 0, required equity 0) and the
division branch is never taken; for call > 0 it returns ratio = pot/call
rounded to two decimals and percentage = required equity =
call/(pot+call)*100 rounded to one decimal. -/
theorem c7_pot_odds_amended :
    ∀ pot call : ℚ,
      (call ≤ 0 → calculate_pot_odds pot call = ⟨0, 0, 0⟩) ∧
      (0 < call →
        (calculate_pot_odds pot call).ratio = round2 (pot / call) ∧
        (calculate_pot_odds pot call).percentage = round1 (call / (pot + call) * 100) ∧
        (calculate_pot_odds pot call).required_equity = round1 (call / (pot + call) * 100)) := by
  intro pot call
  constructor
  · intro hle
    unfold calculate_pot_odds
    rw [if_pos hle]
  · intro hpos
    unfold calculate_pot_odds
    rw [if_neg (not_le.mpr hpos)]
    exact ⟨rfl, rfl, rfl⟩

theorem c7_pot_odds_amended_witness :
    calculate_pot_odds 100 (-5) = ⟨0, 0, 0⟩ ∧
    (calculate_pot_odds 1 3).ratio = round2 (1 / 3) :=
  ⟨(c7_pot_odds_amended 100 (-5)).1 (by norm_num),
   ((c7_pot_odds_amended 1 3).2 (by norm_num)).1⟩

/-- Claim C7 as stated is false: for pot = 1, call = 3 the returned ratio is
0.33 (the source rounds `pot / call` to two decimals before returning it),
not the exact 1/3. -/
theorem c7_counterexample : ¬ c7Statement := by
  intro hc
  have h := ((hc 1 3).2 (by norm_num)).1
  have h2 : (calculate_pot_odds 1 3).ratio = 33 / 100 := by
    unfold calculate_pot_odds
    rw [if_neg (by norm_num)]
    show round2 (1 / 3) = 33 / 100
    rw [round2_eq _ 33 (by norm_num [Int.floor_eq_iff]) (by norm_num [Int.floor_eq_iff])]
    norm_num
  rw [h2] at h
  norm_num at h

/-- Claim C5 (amended): the decision function is deterministic thresholding
against the ROUNDED required equity computed by `calculate_pot_odds`
(`call/(pot+call)*100` rounded to one decimal when call > 0): call = 0 ⇒
CHECK; otherwise RAISE when equity exceeds it by more than 20, CALL by more
than 10, CALL (marginal) otherwise; FOLD when the deficit exceeds 15, FOLD
(close) otherwise.  The reported expected value is
`(equity/100)*(pot+call) - (1-equity/100)*call` rounded to two decimals.
For pot = 100, call = 50, equity = 60 the required equity is 33.3 and the
recommendation is RAISE. -/
theorem c5_decision_amended :
    ∀ pot call equity stack : ℚ,
      ((analyze_decision pot call equity stack).expected_value =
        round2 (equity / 100 * (pot + call) - (1 - equity / 100) * call)) ∧
      ((analyze_decision pot call equity stack).required_equity =
        (calculate_pot_odds pot call).required_equity) ∧
      (0 < call → (calculate_pot_odds pot call).required_equity =
        round1 (call / (pot + call) * 100)) ∧
      (call = 0 →
        (analyze_decision pot call equity stack).recommended_action = (r"CHECK")) ∧
      (call ≠ 0 →
        ((calculate_pot_odds pot call).required_equity < equity →
          (20 < equity - (calculate_pot_odds pot call).required_equity →
            (analyze_decision pot call equity stack).recommended_action = (r"RAISE")) ∧
          (equity - (calculate_pot_odds pot call).required_equity ≤ 20 →
            10 < equity - (calculate_pot_odds pot call).required_equity →
            (analyze_decision pot call equity stack).recommended_action = (r"CALL")) ∧
          (equity - (calculate_pot_odds pot call).required_equity ≤ 10 →
            (analyze_decision pot call equity stack).recommended_action =
              (r"CALL (marginal)"))) ∧
        (equity ≤ (calculate_pot_odds pot call).required_equity →
          (15 < (calculate_pot_odds pot call).required_equity - equity →
            (analyze_decision pot call equity stack).recommended_action = (r"FOLD")) ∧
          ((calculate_pot_odds pot call).required_equity - equity ≤ 15 →
            (analyze_decision pot call equity stack).recommended_action =
              (r"FOLD (close)")))) ∧
      (analyze_decision 100 50 60 1000).recommended_action = (r"RAISE") := by
  intro pot call equity stack
  refine ⟨rfl, rfl, ?_, ?_, ?_, ?_⟩
  · intro hpos
    unfold calculate_pot_odds
    rw [if_neg (not_le.mpr hpos)]
  · intro h0
    simp only [analyze_decision]
    rw [if_pos h0]
  · intro hne
    constructor
    · intro hlt
      refine ⟨?_, ?_, ?_⟩
      · intro h20
        simp only [analyze_decision]
        rw [if_neg hne, if_pos hlt, if_pos h20]
      · intro hle20 h10
        simp only [analyze_decision]
        rw [if_neg hne, if_pos hlt, if_neg (not_lt.mpr hle20), if_pos h10]
      · intro hle10
        simp only [analyze_decision]
        rw [if_neg hne, if_pos hlt, if_neg (not_lt.mpr (by linarith)),
          if_neg (not_lt.mpr hle10)]
    · intro hge
      constructor
      · intro h15
        simp only [analyze_decision]
        rw [if_neg hne, if_neg (not_lt.mpr hge), if_pos h15]
      · intro hle15
        simp only [analyze_decision]
        rw [if_neg hne, if_neg (not_lt.mpr hge), if_neg (not_lt.mpr hle15)]
  · simp only [analyze_decision]
    rw [if_neg (by norm_num), if_pos (by rw [required_equity_100_50]; norm_num),
      if_pos (by rw [required_equity_100_50]; norm_num)]

theorem c5_decision_amended_witness :
    (analyze_decision 100 0 60 1000).recommended_action = (r"CHECK") ∧
    (calculate_pot_odds 100 50).required_equity = round1 (50 / (100 + 50) * 100) :=
  ⟨(c5_decision_amended 100 0 60 1000).2.2.2.1 rfl,
   (c5_decision_amended 100 50 60 1000).2.2.1 (by norm_num)⟩

/-- Claim C5 as stated is false: at pot = 100, call = 50, equity = 33.31 the
exact required equity is 100/3 = 33.33.., so the claim demands FOLD
(close); the source compares against the required equity ROUNDED to one
decimal (33.3) and returns CALL (marginal). -/
theorem c5_counterexample : ¬ c5Statement := by
  intro hc
  have haction : (analyze_decision 100 50 (3331 / 100) 1000).recommended_action =
      (r"CALL (marginal)") := by
    simp only [analyze_decision]
    rw [if_neg (by norm_num), if_pos (by rw [required_equity_100_50]; norm_num),
      if_neg (by rw [required_equity_100_50]; norm_num),
      if_neg (by rw [required_equity_100_50]; norm_num)]
  have h := ((hc 100 50 (3331 / 100) 1000).2.1 (by norm_num)).2 (by norm_num)
  have h2 := h.2 (by norm_num)
  rw [haction] at h2
  exact absurd h2 (by decide)


/-- Claim C3 is right and the code is wrong (code bug): when opponent
ranges are supplied, `calculate_equity_monte_carlo` samples a combo with
`random.choice` without any disjointness check against already-dealt cards.
With hero 2-C 3-C, the complete river board 4-H 9-D Q-S 7-C 2-S, and two
single-combo opponent ranges [(A-H, K-D)] and [(A-H, Q-D)], every trial
deals the ace of hearts to both opponents — for every shuffle of the
remaining deck and every choice oracle, the dealt cards of the trial are
not pairwise distinct. -/
theorem c3_trial_deals_duplicate_card :
    ∀ (shuffled : List Card) (pick : Nat → Nat),
      (trial_dealt_cards [⟨0, 2⟩, ⟨1, 2⟩] [⟨2, 0⟩, ⟨7, 1⟩, ⟨10, 3⟩, ⟨5, 2⟩, ⟨0, 3⟩]
        shuffled 2 (some [[(⟨12, 0⟩, ⟨11, 1⟩)], [(⟨12, 0⟩, ⟨10, 1⟩)]]) pick).count
        ⟨12, 0⟩ = 2 := by
  intro shuffled pick
  simp [trial_dealt_cards, monte_carlo_trial_deal, deal_opponents, List.range_succ,
    Nat.mod_one, List.count_cons]

/-- Claim C8 is right and the code is wrong (code bug): the FOLD branch of
`estimate_preflop_range` returns a payload without the `combo_count` key
(modelled as `combo_count = none`) for every position and facing action,
although every other branch populates it — e.g. UTG open raise carries 86
combos. -/
theorem c8_fold_payload_missing_combo_count :
    (∀ pos : Position, ∀ facing : Option Action,
      (estimate_preflop_range pos .FOLD facing).combo_count = none) ∧
    (estimate_preflop_range .UTG .RAISE none).combo_count = some 86 := by
  constructor
  · intro pos facing
    rfl
  · decide


theorem c2_outs_characterization_witness :
    (⟨0, 1⟩ : Card) ∈ unknown_cards [⟨0, 0⟩, ⟨5, 1⟩] [⟨7, 2⟩, ⟨9, 3⟩] ∧
    out_improves (evaluate_hand ([⟨0, 0⟩, ⟨5, 1⟩] ++ [⟨7, 2⟩, ⟨9, 3⟩])) [⟨0, 0⟩, ⟨5, 1⟩]
      [⟨7, 2⟩, ⟨9, 3⟩] ⟨0, 1⟩ = true :=
  (c2_outs_characterization [⟨0, 0⟩, ⟨5, 1⟩] [⟨7, 2⟩, ⟨9, 3⟩]).2.2.2.2.2.2.2.2 ⟨0, 1⟩
    (by decide)

end Poker
